import Mathlib

/-!
Shallow embedding of the health-check / geolocation repository.

`vm_trigger.py` probes hosts over the network (TCP connect, HTTP GET,
subprocess ping) and posts Slack messages.  All interaction with the
outside world is modelled by an explicit oracle structure `World`:
each field gives the outcome the environment would produce for one kind
of request.  Python functions that swallow exceptions become total Lean
functions over outcome types that include an exception constructor.
-/

namespace VmMonitor

/-- Outcome of `sock.connect_ex((ip, port))` inside `check_tcp_port`:
either `connect_ex` returned an error code (0 means the connection
succeeded), or an exception was raised (name resolution failure, socket
creation failure, ...). -/
inductive ConnectOutcome where
  | result (code : Int)
  | exn (msg : String)
deriving DecidableEq, Repr

/-- The environment as seen by `vm_trigger.py`.  `connect ip port timeout`
models one TCP connection attempt; `httpGet protocol ip port` models one
`requests.get` (`none` = any exception, `some code` = a response with that
status code); `runPing cmd timeout` models one `subprocess.run` of the ping
command (`none` = any exception including `TimeoutExpired`, `some rc` = the
process exited with return code `rc`); `isWindows` models
`platform.system().lower() == "windows"`; `commonPorts` is the externally
configured `COMMON_PORTS` list imported from `config.py`. -/
structure World where
  connect : String → Nat → Nat → ConnectOutcome
  httpGet : String → String → Nat → Option Nat
  isWindows : Bool
  runPing : List String → Nat → Option Int
  commonPorts : List Nat

/-- `check_tcp_port(ip_address, port, timeout)`: true iff `connect_ex`
returned 0; every raised exception is caught and yields `False`. -/
def check_tcp_port (w : World) (ip : String) (port : Nat) (timeout : Nat) : Bool :=
  match w.connect ip port timeout with
  | .result code => code == 0
  | .exn _ => false

/-- `check_any_port_open(ip_address, ports)`: scan `ports` in order with a
2s per-attempt timeout, returning `(True, port)` for the first open port
and `(False, None)` when none is open. -/
def check_any_port_open (w : World) (ip : String) : List Nat → Bool × Option Nat
  | [] => (false, none)
  | port :: rest =>
      if check_tcp_port w ip port 2 then (true, some port)
      else check_any_port_open w ip rest

/-- The fixed port list of `check_http_service`. -/
def http_ports : List Nat := [80, 443, 8080, 3000, 8000]

/-- The protocol list of `check_http_service` (outer loop). -/
def http_protocols : List String := ["http", "https"]

/-- Inner loop of `check_http_service`: for one protocol, try each port;
a response with status `< 500` returns `protocol:port`, any exception or
a `>= 500` response moves on to the next port. -/
def tryHttpPorts (w : World) (protocol ip : String) : List Nat → Option String
  | [] => none
  | port :: rest =>
      match w.httpGet protocol ip port with
      | some code =>
          if code < 500 then some (protocol ++ ":" ++ toString port)
          else tryHttpPorts w protocol ip rest
      | none => tryHttpPorts w protocol ip rest

/-- Outer loop of `check_http_service` over `['http', 'https']`. -/
def tryHttpProtocols (w : World) (ip : String) : List String → Option String
  | [] => none
  | protocol :: rest =>
      match tryHttpPorts w protocol ip http_ports with
      | some s => some s
      | none => tryHttpProtocols w ip rest

/-- `check_http_service(ip_address)`: returns `(True, "protocol:port")`
for the first (protocol, port) combination — protocols in the outer loop,
ports in the inner loop — answering with status `< 500`, else
`(False, None)`. -/
def check_http_service (w : World) (ip : String) : Bool × Option String :=
  match tryHttpProtocols w ip http_protocols with
  | some s => (true, some s)
  | none => (false, none)

/-- The ping command built by `check_vm_status_ping`: 2 echo requests on
both platforms, per-reply timeout 3000 ms on Windows / 3 s elsewhere. -/
def ping_command (isWin : Bool) (ip : String) : List String :=
  if isWin then ["ping", "-n", "2", "-w", "3000", ip]
  else ["ping", "-c", "2", "-W", "3", ip]

/-- `check_vm_status_ping(ip_address)` under the idealization that
`subprocess.run` accepts the call's keyword arguments and runs the
command: true iff the process ran to completion and exited with return
code 0, with every exception caught as `False`.  The source's actual
argument combination makes `subprocess.run` raise `ValueError` before any
process is spawned — `check_vm_status_ping_subprocess` below models that
faithfully; this idealized form only widens the set of environments the
classifier theorems quantify over (it can return `true` in environments
the real call site never reaches), so theorems proved over it cover the
real behaviour as a special case. -/
def check_vm_status_ping (w : World) (ip : String) : Bool :=
  match w.runPing (ping_command w.isWindows ip) 10 with
  | some rc => rc == 0
  | none => false

/-- The keyword arguments `check_vm_status_ping` passes to
`subprocess.run`: `capture_output=True`, `text=True`, `timeout=10`,
`stdout=subprocess.DEVNULL`, `stderr=subprocess.DEVNULL`. -/
structure SubprocessArgs where
  command : List String
  capture_output : Bool
  text : Bool
  timeout : Nat
  stdout_devnull : Bool
  stderr_devnull : Bool
deriving DecidableEq, Repr

/-- `subprocess.run`'s argument validation: passing `capture_output=True`
together with a `stdout` or `stderr` argument raises
`ValueError("stdout and stderr arguments may not be used with
capture_output.")` before any process is spawned. -/
def capture_conflict (args : SubprocessArgs) : Bool :=
  args.capture_output && (args.stdout_devnull || args.stderr_devnull)

/-- The exact `subprocess.run` arguments built at the call site inside
`check_vm_status_ping`. -/
def ping_run_args (isWin : Bool) (ip : String) : SubprocessArgs :=
  { command := ping_command isWin ip, capture_output := true, text := true,
    timeout := 10, stdout_devnull := true, stderr_devnull := true }

/-- `check_vm_status_ping(ip_address)` translated faithfully, including
`subprocess.run`'s argument validation: when the arguments conflict the
`ValueError` is raised before spawning and the bare `except` returns
`False` (no ping is ever sent); only otherwise would the OS run the
command and the return code be compared with 0. -/
def check_vm_status_ping_subprocess (w : World) (ip : String) : Bool :=
  let args := ping_run_args w.isWindows ip
  if capture_conflict args then false
  else
    match w.runPing args.command args.timeout with
    | some rc => rc == 0
    | none => false

/-- Python `str()` applied to an `Option Nat` value interpolated into an
f-string (`None` prints as `"None"`). -/
def pyStrOfOptNat : Option Nat → String
  | some n => toString n
  | none => "None"

/-- Python `str()` applied to an `Option String` value interpolated into
an f-string. -/
def pyStrOfOptStr : Option String → String
  | some s => s
  | none => "None"

/-- `comprehensive_server_check(ip_address)`: port scan, then HTTP, then
ping, returning `("UP", method)` at the first success and
`("DOWN", "All checks failed")` when all three fail. -/
def comprehensive_server_check (w : World) (ip : String) : String × String :=
  let pr := check_any_port_open w ip w.commonPorts
  if pr.1 then ("UP", "TCP Port " ++ pyStrOfOptNat pr.2)
  else
    let hr := check_http_service w ip
    if hr.1 then ("UP", "HTTP " ++ pyStrOfOptStr hr.2)
    else if check_vm_status_ping w ip then ("UP", "ICMP Ping")
    else ("DOWN", "All checks failed")

/-- Whether one (protocol, port) combination answers `check_http_service`
with a status code below 500. -/
def httpResponds (w : World) (ip : String) (pr : String × Nat) : Bool :=
  match w.httpGet pr.1 ip pr.2 with
  | some code => decide (code < 500)
  | none => false

/-- The ten (protocol, port) combinations `check_http_service` attempts,
in the order of its nested loops: all five ports under `http`, then all
five under `https`. -/
def http_attempts : List (String × Nat) :=
  [("http", 80), ("http", 443), ("http", 8080), ("http", 3000), ("http", 8000),
   ("https", 80), ("https", 443), ("https", 8080), ("https", 3000), ("https", 8000)]

/-- The dictionary built by `check_single_vm` (minus the wall-clock
`timestamp`, which no observable behaviour in scope depends on). -/
structure CheckRecord where
  name : String
  ip : String
  status : String
  method : String
deriving DecidableEq, Repr

/-- One call to `send_slack_notification(vm_name, ip_address, status,
method)` as issued by the main loop: the payload of a per-target alert. -/
structure SlackAlert where
  name : String
  ip : String
  status : String
  method : String
deriving DecidableEq, Repr

/-- The observable content of the summary Slack message built by
`send_summary_notification`: the headline down/total counts interpolated
into the text, and the per-server fields placed in the main section
(`server_fields[:10]`). -/
structure SummaryMessage where
  text : String
  listedFields : List String
  reportedDown : Nat
  reportedTotal : Nat
deriving DecidableEq, Repr

/-- The mrkdwn field built for one down server inside
`send_summary_notification`. -/
def summaryField (s : CheckRecord) : String :=
  "*" ++ s.name ++ "*\n`" ++ s.ip ++ "` - _" ++ s.status ++ "_"

/-- `send_summary_notification(down_servers, total_servers)`: returns
early (no message) when `down_servers` is empty; otherwise builds the
summary message whose main section shows only the first 10 fields. -/
def send_summary_notification (down_servers : List CheckRecord)
    (total_servers : Nat) : Option SummaryMessage :=
  if down_servers.isEmpty then none
  else
    let down_count := down_servers.length
    some
      { text := "⚠️ MONITORING SUMMARY: " ++ toString down_count ++ "/"
          ++ toString total_servers ++ " servers are DOWN"
        listedFields := (down_servers.map summaryField).take 10
        reportedDown := down_count
        reportedTotal := total_servers }

/-- `send_slack_notification`'s HTTP delivery, abstracted over the POST
outcomes the network would return for successive requests (`post n` is the
outcome of the `n`-th POST the function would issue; the function issues
exactly one, consulting only `post 0`).  `.ok code` is a response with that
status code, `.error msg` a raised `requests.exceptions.RequestException`.
Returns `True` on a 200 response, `False` otherwise; the exception is
caught and logged, never re-raised. -/
def send_slack_notification (post : Nat → Except String Nat) : Bool :=
  match post 0 with
  | .ok code => code == 200
  | .error _ => false

instance : DecidableEq (Except String CheckRecord) := fun x y =>
  match x, y with
  | .ok a, .ok b =>
      if h : a = b then isTrue (by rw [h])
      else isFalse (fun he => h (Except.ok.inj he))
  | .error a, .error b =>
      if h : a = b then isTrue (by rw [h])
      else isFalse (fun he => h (Except.error.inj he))
  | .ok _, .error _ => isFalse (fun he => Except.noConfusion he)
  | .error _, .ok _ => isFalse (fun he => Except.noConfusion he)

/-- One completed future of the main `as_completed` loop: the target's
name and address (from `future_to_vm` / `VMS_TO_MONITOR`) and what
`future.result()` did — returned a record, or raised an exception whose
message is `str(e)`. -/
structure FutureItem where
  name : String
  ip : String
  outcome : Except String CheckRecord
deriving DecidableEq, Repr

/-- The per-target alert the main loop issues for one result
(`result['name'], result['ip'], result['status'], result.get('method')`). -/
def alertOfRecord (r : CheckRecord) : SlackAlert :=
  { name := r.name, ip := r.ip, status := r.status, method := r.method }

/-- The `for future in as_completed(...)` loop of `__main__`, folded over
the completion-order list of futures.  Produces (`results`,
`down_servers`, per-target alerts issued), in order.  A normal result is
appended to `results`; if its status is not `"UP"` it is also appended to
`down_servers` and alerted.  A raised exception is converted to an
`ERROR` record carrying `str(e)` as `method`, appended to both lists and
alerted; the loop then continues with the remaining futures. -/
def main_result_loop : List FutureItem →
    List CheckRecord × List CheckRecord × List SlackAlert
  | [] => ([], [], [])
  | item :: rest =>
      let acc := main_result_loop rest
      match item.outcome with
      | .ok r =>
          if r.status != "UP" then
            (r :: acc.1, r :: acc.2.1, alertOfRecord r :: acc.2.2)
          else
            (r :: acc.1, acc.2.1, acc.2.2)
      | .error e =>
          let er : CheckRecord :=
            { name := item.name, ip := item.ip, status := "ERROR", method := e }
          (er :: acc.1, er :: acc.2.1, alertOfRecord er :: acc.2.2)

/-- Everything observable that one `__main__` run produces from its
completed futures: collected results, the down/error list, the per-target
alerts, and the summary message (if one was sent). -/
structure RunOutput where
  results : List CheckRecord
  down_servers : List CheckRecord
  alerts : List SlackAlert
  summary : Option SummaryMessage
deriving DecidableEq, Repr

/-- The tail of `__main__` after the executor block: compute
`total_servers = len(results)` and, when `down_servers` is non-empty and
`len(down_servers) >= 1`, call `send_summary_notification`. -/
def main_run (items : List FutureItem) : RunOutput :=
  let acc := main_result_loop items
  let total_servers := acc.1.length
  let summary :=
    if !acc.2.1.isEmpty then
      if acc.2.1.length ≥ 1 then
        send_summary_notification acc.2.1 total_servers
      else none
    else none
  { results := acc.1, down_servers := acc.2.1, alerts := acc.2.2,
    summary := summary }

/-- The five (scheme, port) pairs the specification lists for the HTTP
probe: "http:80, https:443, http:8080, http:3000, http:8000". -/
def spec_http_pairs : List (String × Nat) :=
  [("http", 80), ("https", 443), ("http", 8080), ("http", 3000), ("http", 8000)]

/-- HTTP probe as the specification words it (for comparison with
`check_http_service`, which is translated from the source): try exactly
the five pairs of `spec_http_pairs`, succeed with the first one answering
below 500, fail if every one of the five errors or answers `>= 500`. -/
def check_http_service_specList (w : World) (ip : String) : Bool × Option String :=
  match spec_http_pairs.find? (httpResponds w ip) with
  | some pr => (true, some (pr.1 ++ ":" ++ toString pr.2))
  | none => (false, none)

/-- Concrete environment: TCP port 22 accepts the connection, every other
port refuses; HTTP and ping get nothing. -/
def wPort22 : World :=
  { connect := fun _ port _ => if port == 22 then .result 0 else .result 111
    httpGet := fun _ _ _ => none
    isWindows := false
    runPing := fun _ _ => some 1
    commonPorts := [22, 80, 443] }

/-- Concrete environment: every connection attempt raises, every HTTP
request raises, ping times out. -/
def wAllFail : World :=
  { connect := fun _ _ _ => .exn "unreachable"
    httpGet := fun _ _ _ => none
    isWindows := false
    runPing := fun _ _ => none
    commonPorts := [22, 80, 443] }

/-- Concrete environment: the only HTTP request that gets a response is
`http` on port 443 (status 200); every TCP connect errors and ping gets
nothing. -/
def wHttp443 : World :=
  { connect := fun _ _ _ => .result 111
    httpGet := fun protocol _ port =>
      if protocol == "http" && port == 443 then some 200 else none
    isWindows := false
    runPing := fun _ _ => none
    commonPorts := [22, 80] }

/-- Concrete environment for the port probe: port 80 raises on connect,
port 22 accepts, port 443 refuses. -/
def wErrThenOpen : World :=
  { connect := fun _ port _ =>
      if port == 80 then .exn "timed out"
      else if port == 22 then .result 0
      else .result 111
    httpGet := fun _ _ _ => none
    isWindows := false
    runPing := fun _ _ => none
    commonPorts := [80, 22, 443] }

/-- POST outcomes for a Slack delivery whose connection is refused. -/
def postRefused : Nat → Except String Nat := fun _ => .error "connection refused"

/-- Completion-order futures of a demonstration run with one DOWN target. -/
def demoDownItems : List FutureItem :=
  [{ name := "B", ip := "10.0.0.2",
     outcome := .ok { name := "B", ip := "10.0.0.2", status := "DOWN",
                      method := "All checks failed" } }]

/-- Completion-order futures of a demonstration run with one ERROR target
(its future raised) and one UP target. -/
def demoErrorItems : List FutureItem :=
  [{ name := "A", ip := "10.0.0.1", outcome := .error "boom" },
   { name := "C", ip := "10.0.0.3",
     outcome := .ok { name := "C", ip := "10.0.0.3", status := "UP",
                      method := "TCP Port 22" } }]

end VmMonitor

namespace Geolocation

/-- The `location` object `data['results'][i]['geometry']['location']`.
Coordinates are opaque payload values (floats in the source); their
numeric meaning is outside the scope of the control flow being verified. -/
structure LocationObj where
  lat : String
  lng : String
deriving DecidableEq, Repr

/-- One entry of `data['results']` at the granularity `get_geolocation`
accesses it: `geometry.location`, `formatted_address` (indexed, hence
required), and `place_id` (accessed with `.get`, hence optional). -/
structure GeoApiResult where
  location : LocationObj
  formatted_address : String
  place_id : Option String
deriving DecidableEq, Repr

/-- Outcome of the geocoding HTTP exchange inside the `try` block of
`get_geolocation`: a `requests.exceptions.RequestException` (from
`requests.get` or `raise_for_status`), any other exception (JSON decoding
failure, a missing key, ...), or a decoded payload with its `status`
string, `results` list and optional `error_message`. -/
inductive ApiOutcome where
  | reqException (msg : String)
  | otherException (msg : String)
  | payload (status : String) (results : List GeoApiResult)
      (error_message : Option String)
deriving DecidableEq, Repr

/-- The dictionary `get_geolocation` returns: either the geolocation keys
(`latitude`, `longitude`, `formatted_address`, `place_id`) or the error
keys (`error`, `message`). -/
inductive GeoResponse where
  | geo (latitude longitude formatted_address place_id : String)
  | err (error message : String)
deriving DecidableEq, Repr

/-- `get_geolocation(address)`, abstracted over the API outcome for that
address.  On a payload with `status == 'OK'` and a non-empty `results`
list it returns the geolocation keys of the first result (with
`place_id` defaulted to `''`); on any other payload it returns the
payload's status as `error` and `error_message` (default
`'No results found'`) as `message`; a `RequestException` yields
`('API_REQUEST_FAILED', str(e))` and any other exception
`('UNEXPECTED_ERROR', str(e))`. -/
def get_geolocation (o : ApiOutcome) : GeoResponse :=
  match o with
  | .reqException msg => .err "API_REQUEST_FAILED" msg
  | .otherException msg => .err "UNEXPECTED_ERROR" msg
  | .payload status results error_message =>
      if status == "OK" && !results.isEmpty then
        match results with
        | r :: _ =>
            .geo r.location.lat r.location.lng r.formatted_address
              (r.place_id.getD "")
        | [] => .err status (error_message.getD "No results found")
      else
        .err status (error_message.getD "No results found")

/-- A demonstration result entry as the geocoding API would return it. -/
def rDemo : GeoApiResult :=
  { location := { lat := "12.97", lng := "77.59" }
    formatted_address := "Bengaluru, Karnataka, India"
    place_id := some "ChIJbU60yXAWrjsR4E9-UejD3_g" }

end Geolocation

namespace VmMonitor

lemma check_tcp_port_congr (w w' : World) (h : w'.connect = w.connect)
    (ip : String) (port timeout : Nat) :
    check_tcp_port w' ip port timeout = check_tcp_port w ip port timeout := by
  simp [check_tcp_port, h]

lemma check_any_port_open_congr (w w' : World) (h : w'.connect = w.connect)
    (ip : String) : ∀ ports : List Nat,
    check_any_port_open w' ip ports = check_any_port_open w ip ports := by
  intro ports
  induction ports with
  | nil => rfl
  | cons p rest ih =>
      simp only [check_any_port_open, check_tcp_port_congr w w' h, ih]

lemma check_any_port_open_fst_true (w : World) (ip : String) :
    ∀ ports : List Nat, (check_any_port_open w ip ports).1 = true →
      ∃ p, (check_any_port_open w ip ports).2 = some p := by
  intro ports
  induction ports with
  | nil => intro h; simp [check_any_port_open] at h
  | cons p rest ih =>
      intro h
      by_cases hp : check_tcp_port w ip p 2 = true
      · exact ⟨p, by simp [check_any_port_open, hp]⟩
      · simp only [check_any_port_open, if_neg hp] at h ⊢
        exact ih h

lemma check_any_port_open_first (w : World) (ip : String)
    (l₁ : List Nat) (p : Nat) (l₂ : List Nat)
    (h1 : ∀ q ∈ l₁, check_tcp_port w ip q 2 = false)
    (h2 : check_tcp_port w ip p 2 = true) :
    check_any_port_open w ip (l₁ ++ p :: l₂) = (true, some p) := by
  induction l₁ with
  | nil => simp [check_any_port_open, h2]
  | cons q rest ih =>
      have hq : check_tcp_port w ip q 2 = false := h1 q (by simp)
      simp only [List.cons_append, check_any_port_open, hq]
      exact ih (fun x hx => h1 x (by simp [hx]))

lemma check_any_port_open_all_closed (w : World) (ip : String) :
    ∀ ports : List Nat, (∀ q ∈ ports, check_tcp_port w ip q 2 = false) →
      check_any_port_open w ip ports = (false, none) := by
  intro ports
  induction ports with
  | nil => intro _; rfl
  | cons q rest ih =>
      intro h
      have hq : check_tcp_port w ip q 2 = false := h q (by simp)
      simp only [check_any_port_open, hq]
      exact ih (fun x hx => h x (by simp [hx]))

lemma find_first_append {α : Type} (p : α → Bool) :
    ∀ (l₁ : List α) (a : α) (l₂ : List α),
      (∀ x ∈ l₁, p x = false) → p a = true →
      (l₁ ++ a :: l₂).find? p = some a := by
  intro l₁ a l₂ h1 h2
  induction l₁ with
  | nil => simp [List.find?_cons_of_pos, h2]
  | cons x rest ih =>
      have hx : p x = false := h1 x (by simp)
      simp only [List.cons_append]
      rw [List.find?_cons_of_neg _ (by simp [hx])]
      exact ih (fun y hy => h1 y (by simp [hy]))

lemma tryHttpPorts_eq_find (w : World) (protocol ip : String) :
    ∀ ports : List Nat,
      tryHttpPorts w protocol ip ports =
        ((ports.map (fun p => (protocol, p))).find? (httpResponds w ip)).map
          (fun pr => pr.1 ++ ":" ++ toString pr.2) := by
  intro ports
  induction ports with
  | nil => rfl
  | cons p rest ih =>
      simp only [tryHttpPorts, List.map]
      cases hc : w.httpGet protocol ip p with
      | some code =>
          by_cases h5 : code < 500
          · rw [List.find?_cons_of_pos _ (by simp [httpResponds, hc, h5])]
            simp [h5]
          · rw [List.find?_cons_of_neg _ (by simp [httpResponds, hc, h5])]
            simp [h5, ih]
      | none =>
          rw [List.find?_cons_of_neg _ (by simp [httpResponds, hc])]
          exact ih

lemma check_http_service_eq_find (w : World) (ip : String) :
    check_http_service w ip =
      match http_attempts.find? (httpResponds w ip) with
      | some pr => (true, some (pr.1 ++ ":" ++ toString pr.2))
      | none => (false, none) := by
  have happ : http_attempts =
      (http_ports.map (fun p => ("http", p)))
        ++ (http_ports.map (fun p => ("https", p))) := by rfl
  simp only [check_http_service, tryHttpProtocols,
    tryHttpPorts_eq_find w "http" ip http_ports,
    tryHttpPorts_eq_find w "https" ip http_ports, happ, List.find?_append]
  cases h1 : (http_ports.map (fun p => (("http" : String), p))).find?
      (httpResponds w ip) with
  | some pr => simp
  | none =>
      simp only [Option.map_none, Option.none_or]
      cases h2 : (http_ports.map (fun p => (("https" : String), p))).find?
          (httpResponds w ip) with
      | some pr => simp
      | none => simp

lemma check_http_service_fst_true (w : World) (ip : String)
    (h : (check_http_service w ip).1 = true) :
    ∃ s, (check_http_service w ip).2 = some s := by
  rw [check_http_service_eq_find] at h ⊢
  cases hf : http_attempts.find? (httpResponds w ip) with
  | some pr => exact ⟨pr.1 ++ ":" ++ toString pr.2, by simp [hf]⟩
  | none => rw [hf] at h; simp at h

lemma check_http_service_congr (w w' : World) (h : w'.httpGet = w.httpGet)
    (ip : String) : check_http_service w' ip = check_http_service w ip := by
  rw [check_http_service_eq_find, check_http_service_eq_find]
  have : httpResponds w' ip = httpResponds w ip := by
    funext pr; simp [httpResponds, h]
  rw [this]

/-- C1: `comprehensive_server_check` runs the port probe, then the HTTP
probe, then the ICMP probe, short-circuiting on the first success: when a
probe succeeds, its method description is returned with status "UP", with
port taking priority over HTTP over ICMP; "UP" is returned whenever at
least one probe succeeds; and once an earlier probe has succeeded the
result does not depend on the environment's answers to the later probes
(they are not consulted). -/
theorem comprehensive_server_check_first_success (w : World) (ip : String) :
    (∀ p, check_any_port_open w ip w.commonPorts = (true, some p) →
        comprehensive_server_check w ip = ("UP", "TCP Port " ++ toString p))
    ∧ ((check_any_port_open w ip w.commonPorts).1 = true →
        ∃ p, (check_any_port_open w ip w.commonPorts).2 = some p)
    ∧ (∀ s, (check_any_port_open w ip w.commonPorts).1 = false →
        check_http_service w ip = (true, some s) →
        comprehensive_server_check w ip = ("UP", "HTTP " ++ s))
    ∧ ((check_any_port_open w ip w.commonPorts).1 = false →
        (check_http_service w ip).1 = false →
        check_vm_status_ping w ip = true →
        comprehensive_server_check w ip = ("UP", "ICMP Ping"))
    ∧ (((check_any_port_open w ip w.commonPorts).1 = true ∨
          (check_http_service w ip).1 = true ∨
          check_vm_status_ping w ip = true) →
        (comprehensive_server_check w ip).1 = "UP")
    ∧ ((check_any_port_open w ip w.commonPorts).1 = true →
        ∀ w' : World, w'.connect = w.connect → w'.commonPorts = w.commonPorts →
          comprehensive_server_check w' ip = comprehensive_server_check w ip)
    ∧ ((check_any_port_open w ip w.commonPorts).1 = false →
        (check_http_service w ip).1 = true →
        ∀ w' : World, w'.connect = w.connect → w'.commonPorts = w.commonPorts →
          w'.httpGet = w.httpGet →
          comprehensive_server_check w' ip = comprehensive_server_check w ip) := by
  refine ⟨?_, ?_, ?_, ?_, ?_, ?_, ?_⟩
  · intro p hp
    simp [comprehensive_server_check, hp, pyStrOfOptNat]
  · exact check_any_port_open_fst_true w ip w.commonPorts
  · intro s hp hh
    simp [comprehensive_server_check, hp, hh, pyStrOfOptStr]
  · intro hp hh hg
    simp [comprehensive_server_check, hp, hh, hg]
  · intro hsucc
    by_cases hp : (check_any_port_open w ip w.commonPorts).1 = true
    · simp [comprehensive_server_check, hp]
    · have hp' : (check_any_port_open w ip w.commonPorts).1 = false := by
        simpa using hp
      by_cases hh : (check_http_service w ip).1 = true
      · simp [comprehensive_server_check, hp', hh]
      · have hh' : (check_http_service w ip).1 = false := by simpa using hh
        have hg : check_vm_status_ping w ip = true := by
          rcases hsucc with h | h | h
          · exact absurd h hp
          · exact absurd h hh
          · exact h
        simp [comprehensive_server_check, hp', hh', hg]
  · intro hport w' hc hcp
    have hpr : check_any_port_open w' ip w'.commonPorts
        = check_any_port_open w ip w.commonPorts := by
      rw [hcp]; exact check_any_port_open_congr w w' hc ip w.commonPorts
    simp [comprehensive_server_check, hpr, hport]
  · intro hpf hht w' hc hcp hhg
    have hpr : check_any_port_open w' ip w'.commonPorts
        = check_any_port_open w ip w.commonPorts := by
      rw [hcp]; exact check_any_port_open_congr w w' hc ip w.commonPorts
    have hhr : check_http_service w' ip = check_http_service w ip :=
      check_http_service_congr w w' hhg ip
    simp [comprehensive_server_check, hpr, hhr, hpf, hht]

/-- C1 witness: in an environment where TCP port 22 accepts (and HTTP and
ping would fail), the classifier reports UP via TCP port 22. -/
theorem comprehensive_server_check_first_success_witness :
    comprehensive_server_check wPort22 "10.0.0.1"
      = ("UP", "TCP Port " ++ toString 22) :=
  (comprehensive_server_check_first_success wPort22 "10.0.0.1").1 22 (by decide)

/-- C2: when the port scan, the HTTP probe and the ping all fail,
`comprehensive_server_check` returns exactly `("DOWN", "All checks
failed")`. -/
theorem comprehensive_server_check_all_fail (w : World) (ip : String)
    (hp : (check_any_port_open w ip w.commonPorts).1 = false)
    (hh : (check_http_service w ip).1 = false)
    (hg : check_vm_status_ping w ip = false) :
    comprehensive_server_check w ip = ("DOWN", "All checks failed") := by
  simp [comprehensive_server_check, hp, hh, hg]

/-- C2 witness: in an environment where every connect raises, every HTTP
request raises and ping times out, the classifier reports
`("DOWN", "All checks failed")`. -/
theorem comprehensive_server_check_all_fail_witness :
    comprehensive_server_check wAllFail "10.0.0.2"
      = ("DOWN", "All checks failed") :=
  comprehensive_server_check_all_fail wAllFail "10.0.0.2"
    (by decide) (by decide) (by decide)

/-- C3: the `as_completed` loop never drops or aborts on a target: for any
completion order, the collected `results` list has exactly one entry per
completed future, in completion order — the future's own record when
`future.result()` returned normally, and an `ERROR` record carrying the
exception message as `method` when it raised.  In particular a raised
fault for one target leaves every other target's result intact. -/
theorem main_result_loop_isolation (items : List FutureItem) :
    (main_result_loop items).1 = items.map (fun it =>
      match it.outcome with
      | .ok r => r
      | .error e =>
          { name := it.name, ip := it.ip, status := "ERROR", method := e }) := by
  induction items with
  | nil => rfl
  | cons it rest ih =>
      cases h : it.outcome with
      | ok r =>
          by_cases hs : (r.status != "UP") = true
          · simp [main_result_loop, h, hs, ih]
          · simp [main_result_loop, h, hs, ih]
      | error e => simp [main_result_loop, h, ih]

lemma main_result_loop_down_eq_filter (items : List FutureItem) :
    (main_result_loop items).2.1
      = (main_result_loop items).1.filter (fun r => r.status != "UP") := by
  induction items with
  | nil => rfl
  | cons it rest ih =>
      cases h : it.outcome with
      | ok r =>
          by_cases hs : (r.status != "UP") = true
          · simp [main_result_loop, h, hs, List.filter, ih]
          · simp [main_result_loop, h, hs, List.filter,
              (by simpa using hs : r.status = "UP"), ih]
      | error e => simp [main_result_loop, h, List.filter, ih]

/-- C6: whenever a run ends with at least one non-UP result, a summary
message is sent; its main section lists the first `min 10 n` down/error
entries (in order, silently truncated past 10), while its headline counts
are the full truth: the number of non-UP results and the total number of
results, which is the number of targets. -/
theorem summary_truncation (items : List FutureItem)
    (h : (main_run items).down_servers ≠ []) :
    ∃ msg, (main_run items).summary = some msg
      ∧ msg.listedFields.length = min 10 (main_run items).down_servers.length
      ∧ msg.listedFields
          = ((main_run items).down_servers.map summaryField).take 10
      ∧ msg.reportedDown = (main_run items).down_servers.length
      ∧ msg.reportedTotal = (main_run items).results.length
      ∧ (main_run items).down_servers.length
          = ((main_run items).results.filter (fun r => r.status != "UP")).length
      ∧ (main_run items).results.length = items.length := by
  have hr : (main_run items).results = (main_result_loop items).1 := rfl
  have hd : (main_run items).down_servers = (main_result_loop items).2.1 := rfl
  have hne : ¬ (main_result_loop items).2.1.isEmpty := by
    rw [List.isEmpty_iff]
    rw [hd] at h
    exact h
  have hsum : (main_run items).summary
      = send_summary_notification (main_result_loop items).2.1
          (main_result_loop items).1.length := by
    show (if !(main_result_loop items).2.1.isEmpty then
        if (main_result_loop items).2.1.length ≥ 1 then
          send_summary_notification (main_result_loop items).2.1
            (main_result_loop items).1.length
        else none
      else none) = _
    rw [if_pos (by simpa using hne)]
    rw [if_pos (by
      rcases hl : (main_result_loop items).2.1 with _ | ⟨a, l⟩
      · exact absurd (by simp [hl]) hne
      · simp [hl])]
  rw [send_summary_notification, if_neg hne] at hsum
  refine ⟨_, hsum, ?_, ?_, ?_, ?_, ?_, ?_⟩
  · simp [hd, List.length_take]
  · rw [hd]
  · rw [hd]
  · rw [hr]
  · rw [hr, hd, main_result_loop_down_eq_filter]
  · rw [hr, main_result_loop_isolation, List.length_map]

/-- C6 witness: a run whose single target came back DOWN sends a summary
listing that one target with counts 1/1. -/
theorem summary_truncation_witness :
    (main_run demoDownItems).down_servers ≠ [] ∧
    (∃ msg, (main_run demoDownItems).summary = some msg
      ∧ msg.listedFields.length
          = min 10 (main_run demoDownItems).down_servers.length
      ∧ msg.listedFields
          = ((main_run demoDownItems).down_servers.map summaryField).take 10
      ∧ msg.reportedDown = (main_run demoDownItems).down_servers.length
      ∧ msg.reportedTotal = (main_run demoDownItems).results.length
      ∧ (main_run demoDownItems).down_servers.length
          = ((main_run demoDownItems).results.filter
              (fun r => r.status != "UP")).length
      ∧ (main_run demoDownItems).results.length = demoDownItems.length) :=
  ⟨by decide, summary_truncation demoDownItems (by decide)⟩

/-- C7: a run over no targets produces no results, no down list, no
per-target alert and no summary; and in any run the summary message is
sent exactly when the down/error count is at least one. -/
theorem main_run_empty_no_alerts :
    (main_run []).results = [] ∧ (main_run []).down_servers = []
      ∧ (main_run []).alerts = [] ∧ (main_run []).summary = none
      ∧ ∀ items : List FutureItem,
          ((main_run items).summary.isSome = true
            ↔ 1 ≤ (main_run items).down_servers.length) := by
  refine ⟨rfl, rfl, rfl, rfl, ?_⟩
  intro items
  have hd : (main_run items).down_servers = (main_result_loop items).2.1 := rfl
  have hs : (main_run items).summary
      = (if !(main_result_loop items).2.1.isEmpty then
          if (main_result_loop items).2.1.length ≥ 1 then
            send_summary_notification (main_result_loop items).2.1
              (main_result_loop items).1.length
          else none
        else none) := rfl
  rw [hd, hs]
  rcases hl : (main_result_loop items).2.1 with _ | ⟨a, l⟩
  · simp
  · simp [send_summary_notification]

/-- C4 counterexample: in the environment `wHttp443` every one of the five
(scheme, port) pairs the claim lists (http:80, https:443, http:8080,
http:3000, http:8000) errors — so the claim as stated predicts failure —
yet `check_http_service` returns success with "http:443", a combination
outside the claimed list, because the source's nested loops try all ten
protocol × port combinations. -/
theorem check_http_service_spec_counterexample :
    wHttp443.httpGet "http" "10.0.0.9" 80 = none
    ∧ wHttp443.httpGet "https" "10.0.0.9" 443 = none
    ∧ wHttp443.httpGet "http" "10.0.0.9" 8080 = none
    ∧ wHttp443.httpGet "http" "10.0.0.9" 3000 = none
    ∧ wHttp443.httpGet "http" "10.0.0.9" 8000 = none
    ∧ check_http_service_specList wHttp443 "10.0.0.9" = (false, none)
    ∧ check_http_service wHttp443 "10.0.0.9" = (true, some "http:443") := by
  decide

/-- C4 (amended): `check_http_service` tries the ten (scheme, port)
combinations of `http_attempts` — http then https, each over ports 80,
443, 8080, 3000, 8000 — treats any response with status `< 500` as
service present, returns success with the first combination in that
nested-loop order that so responded, and returns failure if every one of
the ten combinations errors or answers `>= 500`. -/
theorem check_http_service_amended (w : World) (ip : String) :
    (∀ (l₁ : List (String × Nat)) (pr : String × Nat) (l₂ : List (String × Nat)),
        http_attempts = l₁ ++ pr :: l₂ →
        (∀ q ∈ l₁, httpResponds w ip q = false) →
        httpResponds w ip pr = true →
        check_http_service w ip = (true, some (pr.1 ++ ":" ++ toString pr.2)))
    ∧ ((∀ q ∈ http_attempts, httpResponds w ip q = false) →
        check_http_service w ip = (false, none)) := by
  constructor
  · intro l₁ pr l₂ hsplit h1 h2
    rw [check_http_service_eq_find, hsplit,
      find_first_append (httpResponds w ip) l₁ pr l₂ h1 h2]
  · intro hall
    rw [check_http_service_eq_find,
      List.find?_eq_none.mpr (fun x hx => by simp [hall x hx])]

/-- C4 (amended) witness: in `wHttp443` the first responding combination
in nested-loop order is http:443 (http:80 errors first), and the probe
returns it. -/
theorem check_http_service_amended_witness :
    check_http_service wHttp443 "10.0.0.9"
      = (true, some ("http" ++ ":" ++ toString 443)) :=
  (check_http_service_amended wHttp443 "10.0.0.9").1
    [("http", 80)] ("http", 443)
    [("http", 8080), ("http", 3000), ("http", 8000), ("https", 80),
      ("https", 443), ("https", 8080), ("https", 3000), ("https", 8000)]
    (by decide) (by decide) (by decide)

/-- C5 (code bug): the claim describes the probe's evident intent, but at
the source's call site `subprocess.run` is passed `capture_output=True`
together with `stdout=DEVNULL` and `stderr=DEVNULL`, a combination its
argument validation rejects with `ValueError` before any process is
spawned, and the bare `except` turns that into `False`.  So on every
platform and in every environment the probe sends no echo request and
returns failure, never consulting the environment's ping outcomes at all
— success is unreachable, contradicting the claim's "success iff the exit
signal indicates at least one reply". -/
theorem check_vm_status_ping_subprocess_always_false (w : World) (ip : String) :
    capture_conflict (ping_run_args w.isWindows ip) = true
    ∧ check_vm_status_ping_subprocess w ip = false
    ∧ (∀ w' : World, check_vm_status_ping_subprocess w' ip
        = check_vm_status_ping_subprocess w ip) := by
  exact ⟨rfl, rfl, fun w' => rfl⟩

/-- C8: the port probe returns success with the first port in the given
order that accepts a connection, failure with no port when none does; and
`check_tcp_port` never lets a connection problem escape — a raised
exception or a non-zero `connect_ex` code are both uniformly "closed"
(`false`). -/
theorem check_any_port_open_contract (w : World) (ip : String) :
    (∀ (l₁ : List Nat) (p : Nat) (l₂ : List Nat),
        (∀ q ∈ l₁, check_tcp_port w ip q 2 = false) →
        check_tcp_port w ip p 2 = true →
        check_any_port_open w ip (l₁ ++ p :: l₂) = (true, some p))
    ∧ (∀ ports : List Nat, (∀ q ∈ ports, check_tcp_port w ip q 2 = false) →
        check_any_port_open w ip ports = (false, none))
    ∧ (∀ (port timeout : Nat) (msg : String),
        w.connect ip port timeout = .exn msg →
        check_tcp_port w ip port timeout = false)
    ∧ (∀ (port timeout : Nat) (code : Int),
        w.connect ip port timeout = .result code → code ≠ 0 →
        check_tcp_port w ip port timeout = false) := by
  refine ⟨?_, check_any_port_open_all_closed w ip, ?_, ?_⟩
  · intro l₁ p l₂ h1 h2
    exact check_any_port_open_first w ip l₁ p l₂ h1 h2
  · intro port timeout msg h
    simp [check_tcp_port, h]
  · intro port timeout code h hc
    simp [check_tcp_port, h, hc]

/-- C8 witness: scanning [80, 22, 443] where port 80's connect raises and
port 22 accepts yields `(true, 22)` — the exception was treated as
closed, not raised. -/
theorem check_any_port_open_contract_witness :
    check_any_port_open wErrThenOpen "10.0.0.7" [80, 22, 443]
      = (true, some 22) :=
  (check_any_port_open_contract wErrThenOpen "10.0.0.7").1 [80] 22 [443]
    (by decide) (by decide)

/-- C9: `send_slack_notification` always returns normally with a boolean:
`true` on a 200 response, `false` on any other status code, `false` on a
raised request exception (caught and logged); and it consults only the
first POST outcome — it never retries, so its value is unchanged under
any environment agreeing on that single delivery attempt. -/
theorem send_slack_notification_contract (post : Nat → Except String Nat) :
    (post 0 = .ok 200 → send_slack_notification post = true)
    ∧ (∀ c : Nat, post 0 = .ok c → c ≠ 200 →
        send_slack_notification post = false)
    ∧ (∀ e : String, post 0 = .error e →
        send_slack_notification post = false)
    ∧ (∀ post2 : Nat → Except String Nat, post2 0 = post 0 →
        send_slack_notification post2 = send_slack_notification post) := by
  refine ⟨?_, ?_, ?_, ?_⟩
  · intro h; simp [send_slack_notification, h]
  · intro c h hc; simp [send_slack_notification, h, hc]
  · intro e h; simp [send_slack_notification, h]
  · intro post2 h; simp [send_slack_notification, h]

/-- C9 witness: a refused connection makes the alert dispatch return
`false` rather than raise. -/
theorem send_slack_notification_contract_witness :
    send_slack_notification postRefused = false :=
  (send_slack_notification_contract postRefused).2.2.1 "connection refused" rfl

end VmMonitor

namespace Geolocation

/-- C10: `get_geolocation` is total over every API outcome and always
returns one of the two dictionary shapes: the geolocation keys
(`latitude`, `longitude`, `formatted_address`, `place_id`) exactly when
the API reported status "OK" with a non-empty results list, and the error
keys (`error`, `message`) in every other case — non-OK status, empty
results, a request exception, or any unexpected exception. -/
theorem get_geolocation_total_shape (o : ApiOutcome) :
    ((∃ la lo fa pid, get_geolocation o = .geo la lo fa pid)
      ∨ (∃ e m, get_geolocation o = .err e m))
    ∧ ((∃ la lo fa pid, get_geolocation o = .geo la lo fa pid)
      ↔ ∃ r rs em, o = .payload "OK" (r :: rs) em) := by
  constructor
  · cases o with
    | reqException msg => exact Or.inr ⟨"API_REQUEST_FAILED", msg, rfl⟩
    | otherException msg => exact Or.inr ⟨"UNEXPECTED_ERROR", msg, rfl⟩
    | payload st res em =>
        by_cases h : (st == "OK" && !res.isEmpty) = true
        · rcases res with _ | ⟨r, rs⟩
          · simp at h
          · have hst : st = "OK" := by
              have := (Bool.and_eq_true _ _).mp h
              simpa using this.1
            subst hst
            exact Or.inl ⟨r.location.lat, r.location.lng,
              r.formatted_address, r.place_id.getD "", by
                simp [get_geolocation]⟩
        · exact Or.inr ⟨st, em.getD "No results found", by
            simp [get_geolocation, h]⟩
  · constructor
    · rintro ⟨la, lo, fa, pid, hg⟩
      cases o with
      | reqException msg => simp [get_geolocation] at hg
      | otherException msg => simp [get_geolocation] at hg
      | payload st res em =>
          by_cases h : (st == "OK" && !res.isEmpty) = true
          · rcases res with _ | ⟨r, rs⟩
            · simp at h
            · have hst : st = "OK" := by
                have := (Bool.and_eq_true _ _).mp h
                simpa using this.1
              exact ⟨r, rs, em, by rw [hst]⟩
          · simp [get_geolocation, h] at hg
    · rintro ⟨r, rs, em, rfl⟩
      exact ⟨r.location.lat, r.location.lng, r.formatted_address,
        r.place_id.getD "", by simp [get_geolocation]⟩

/-- C10 witness: a payload with status "OK" and one well-formed result
yields the geolocation keys. -/
theorem get_geolocation_total_shape_witness :
    ∃ la lo fa pid,
      get_geolocation (.payload "OK" [rDemo] none) = .geo la lo fa pid :=
  (get_geolocation_total_shape (.payload "OK" [rDemo] none)).2.mpr
    ⟨rDemo, [], none, rfl⟩

end Geolocation
